import Mathlib

/-!
Verification of the playback engine of the `bot-musique` Discord bot.

This file shallowly embeds the core of the repository:
* `MusicQueue` from `src/bot/audio/queue.py` (pending deque plus `_current` slot);
* `MusicPlayer` from `src/bot/audio/player.py` (connect, pause/resume, volume,
  position tracking, and the re-queue step of the background player loop);
* the `move` command handler from `src/bot/cogs/music.py`.

Python floats used for volumes and wall-clock times are modelled as rationals;
`asyncio` locks serialise each queue operation, so the sequential semantics
embedded here is the one each caller observes.  External effects (the discord
voice transport, the yt-dlp stream resolver, the wall clock) are passed in as
explicit parameters describing their observable outcome.
-/

namespace BotMusique

/-- Embeds the `Track` dataclass of `src/bot/audio/track.py`.  The
`discord.Member` requester is modelled by an opaque numeric identity. -/
structure Track where
  title : String
  url : String
  stream_url : Option String
  duration : Nat
  thumbnail : String
  source : String
  requester : Nat
  deriving DecidableEq

/-- State of `MusicQueue` (`src/bot/audio/queue.py`, lines 11-116): the pending
deque `_queue` and the `_current` slot. -/
structure MusicQueue where
  queue : List Track
  current : Option Track
  deriving DecidableEq

/-- `MusicQueue.add` (queue.py lines 19-31): append the track, then return the
new length as the 1-indexed position. -/
def MusicQueue.add (s : MusicQueue) (track : Track) : Nat × MusicQueue :=
  let q := s.queue ++ [track]
  (q.length, { s with queue := q })

/-- `MusicQueue.next` (queue.py lines 33-44): pop the head into `_current` and
return it; on an empty deque return `None` and touch nothing. -/
def MusicQueue.next (s : MusicQueue) : Option Track × MusicQueue :=
  match s.queue with
  | [] => (none, s)
  | t :: rest => (some t, { queue := rest, current := some t })

/-- `MusicQueue.clear` (queue.py lines 46-50): empty the deque and reset
`_current`. -/
def MusicQueue.clear (_s : MusicQueue) : MusicQueue :=
  { queue := [], current := none }

/-- One step of the CPython `random.shuffle` Fisher-Yates pass: exchange the
entries at indices `i` and `j` (identity when either index is out of range). -/
def listSwap {α : Type} (l : List α) (i j : Nat) : List α :=
  match l[i]?, l[j]? with
  | some a, some b => (l.set i b).set j a
  | _, _ => l

/-- The loop of CPython `random.shuffle`: for `i` descending from `len - 1`
to `1`, draw `j = randbelow(i + 1)` and swap positions `i` and `j`.  The
random source is modelled by `r`; the draw at index `i` is `r i % (i + 1)`,
which ranges over exactly the values `randbelow(i + 1)` can produce. -/
def shuffleGo {α : Type} (r : Nat → Nat) : Nat → List α → List α
  | 0, l => l
  | i + 1, l => shuffleGo r i (listSwap l (i + 1) (r (i + 1) % (i + 2)))

/-- `random.shuffle` on a list, as called by `MusicQueue.shuffle`. -/
def randomShuffle {α : Type} (r : Nat → Nat) (l : List α) : List α :=
  shuffleGo r (l.length - 1) l

/-- `MusicQueue.shuffle` (queue.py lines 52-57): copy the deque to a list,
`random.shuffle` it, and store it back.  `_current` is not touched. -/
def MusicQueue.shuffle (s : MusicQueue) (r : Nat → Nat) : MusicQueue :=
  { s with queue := randomShuffle r s.queue }

/-- `MusicQueue.get_list` (queue.py lines 59-67): snapshot copy of the deque. -/
def MusicQueue.get_list (s : MusicQueue) : List Track :=
  s.queue

/-- `MusicQueue.is_empty` (queue.py lines 69-77). -/
def MusicQueue.is_empty (s : MusicQueue) : Bool :=
  s.queue.length == 0

/-- `MusicQueue.size` (queue.py lines 79-87). -/
def MusicQueue.size (s : MusicQueue) : Nat :=
  s.queue.length

/-- `MusicQueue.current` accessor (queue.py lines 89-96). -/
def MusicQueue.currentTrack (s : MusicQueue) : Option Track :=
  s.current

/-- `MusicQueue.remove` (queue.py lines 98-116): for `1 <= position <= len`,
pop the 0-based index `position - 1` out of the list and return it; otherwise
return `None` and leave the deque unchanged. -/
def MusicQueue.remove (s : MusicQueue) (position : Int) : Option Track × MusicQueue :=
  if 1 ≤ position ∧ position ≤ s.queue.length then
    let index := (position - 1).toNat
    (s.queue[index]?, { s with queue := s.queue.eraseIdx index })
  else
    (none, s)

/-- The names of the methods the `MusicQueue` class body defines
(queue.py lines 11-116), as Python attribute lookup sees them. -/
def MusicQueue.methodNames : List String :=
  ["add", "next", "clear", "shuffle", "get_list", "is_empty", "size",
   "current", "remove"]

/-- Playback state of the voice transport, as read through
`is_playing` / `is_paused` on the discord voice client. -/
inductive Playback where
  | stopped
  | playing
  | paused
  deriving DecidableEq

/-- The discord voice client as observed through the calls `MusicPlayer`
makes on it: connectedness, playback state, and the volume of the active
`PCMVolumeTransformer` source when one is attached. -/
structure VoiceClient where
  connected : Bool
  playback : Playback
  source_volume : Option ℚ
  deriving DecidableEq

/-- `voice_client.stop()`: playback ends and the active source is dropped. -/
def VoiceClient.stopTransport (vc : VoiceClient) : VoiceClient :=
  { vc with playback := Playback.stopped, source_volume := none }

/-- Exceptions of `src/bot/utils/exceptions.py` raised by the embedded code,
plus the Python `AttributeError` raised by a failed attribute lookup. -/
inductive MusicError where
  | connectionTimeout
  | invalidVolume (volume : ℚ)
  | attributeError (name : String)
  deriving DecidableEq

/-- State of `MusicPlayer` (`src/bot/audio/player.py`, lines 23-50): the owned
queue, the optional voice client, the duplicated `current` track, volume, the
loop flag, the `_is_playing` / `_skip_requested` flags, the pause/position
bookkeeping, the activity timestamp, and whether `_player_task` is alive. -/
structure MusicPlayer where
  queue : MusicQueue
  voice_client : Option VoiceClient
  current : Option Track
  volume : ℚ
  loop : Bool
  is_playing : Bool
  skip_requested : Bool
  playback_start_time : Option ℚ
  pause_position : ℚ
  last_activity_time : Option ℚ
  player_task_alive : Bool
  deriving DecidableEq

/-- Observable outcome of the awaited `channel.connect()` / `move_to()` call
inside `asyncio.wait_for`: success, `asyncio.TimeoutError`, or some other
exception. -/
inductive ConnectOutcome where
  | success
  | timeout
  | otherError
  deriving DecidableEq

/-- `MusicPlayer.is_connected` (player.py lines 287-289). -/
def MusicPlayer.is_connected (p : MusicPlayer) : Bool :=
  match p.voice_client with
  | some vc => vc.connected
  | none => false

/-- `MusicPlayer.connect` (player.py lines 52-98).  The transport call is the
first statement of the `try` block; `asyncio.TimeoutError` re-raises as
`ConnectionTimeout` and any other exception returns `False`, in both cases
before any field of the player is assigned.  On success the voice client is
kept (move) or freshly created, the activity timestamp is refreshed, and the
player loop task is spawned only if not already alive. -/
def MusicPlayer.connect (p : MusicPlayer) (outcome : ConnectOutcome) (now : ℚ) :
    Except MusicError Bool × MusicPlayer :=
  match outcome with
  | ConnectOutcome.timeout => (Except.error MusicError.connectionTimeout, p)
  | ConnectOutcome.otherError => (Except.ok false, p)
  | ConnectOutcome.success =>
    let p :=
      match p.voice_client with
      | some vc =>
        if vc.connected then p
        else { p with voice_client := some ⟨true, Playback.stopped, none⟩ }
      | none => { p with voice_client := some ⟨true, Playback.stopped, none⟩ }
    let p := { p with last_activity_time := some now }
    let p :=
      if p.player_task_alive then p else { p with player_task_alive := true }
    (Except.ok true, p)

/-- `MusicPlayer.set_volume` (player.py lines 264-281): reject values outside
`[0, 1]` with `InvalidVolume(volume * 100)` before any assignment; otherwise
store the volume, propagate it to the live source if one is attached, and
refresh the activity timestamp. -/
def MusicPlayer.set_volume (p : MusicPlayer) (volume : ℚ) (now : ℚ) :
    Except MusicError Unit × MusicPlayer :=
  if ¬ (0 ≤ volume ∧ volume ≤ 1) then
    (Except.error (MusicError.invalidVolume (volume * 100)), p)
  else
    let p := { p with volume := volume }
    let p :=
      match p.voice_client with
      | some vc =>
        match vc.source_volume with
        | some _ => { p with voice_client := some { vc with source_volume := some volume } }
        | none => p
      | none => p
    (Except.ok (), { p with last_activity_time := some now })

/-- `MusicPlayer.resume` (player.py lines 186-247).  Preconditions: a paused
voice client and a known current track, else return `False` untouched.  The
body then stops the transport FIRST, and only afterwards re-resolves a fresh
stream URL (`resolve` models `youtube_source.get_fresh_stream_url`); a failed
resolution returns `False` with the transport already stopped.  On success a
new source is played at the stored volume and `_playback_start_time` and the
activity timestamp are set to `now`. -/
def MusicPlayer.resume (p : MusicPlayer) (resolve : Track → Option String) (now : ℚ) :
    Bool × MusicPlayer :=
  match p.voice_client with
  | none => (false, p)
  | some vc =>
    if vc.playback ≠ Playback.paused then (false, p)
    else
      match p.current with
      | none => (false, p)
      | some cur =>
        let vc := vc.stopTransport
        let p := { p with voice_client := some vc }
        match resolve cur with
        | none => (false, p)
        | some _ =>
          let vc := { vc with playback := Playback.playing, source_volume := some p.volume }
          (true, { p with voice_client := some vc,
                          playback_start_time := some now,
                          last_activity_time := some now })

/-- `MusicPlayer.get_current_position` (player.py lines 291-304): the stored
pause position, plus the wall-clock time since `_playback_start_time` only
when `_is_playing` is set and a start time is recorded. -/
def MusicPlayer.get_current_position (p : MusicPlayer) (now : ℚ) : ℚ :=
  match p.is_playing, p.playback_start_time with
  | true, some start => p.pause_position + (now - start)
  | _, _ => p.pause_position

/-- One iteration of the body of `MusicPlayer._player_loop`
(player.py lines 345-413) from the point where `queue.next()` has already
produced `track`: set `current`, clear `_skip_requested`, resolve a fresh
stream URL (failure drops the track and continues), start transport playback
resetting the position bookkeeping, await `playback_finished`, and finally
re-`add` the track to the queue exactly when the loop flag is set and no skip
was requested.  `skipDuring` tells whether `skip()` ran while the loop was
awaiting `playback_finished` (it is the only writer setting
`_skip_requested` back to `True` during that wait). -/
def MusicPlayer.play_one_track (p : MusicPlayer) (track : Track)
    (resolve : Track → Option String) (now : ℚ) (skipDuring : Bool) : MusicPlayer :=
  let p := { p with current := some track, skip_requested := false }
  match resolve track with
  | none => p
  | some _ =>
    match p.voice_client with
    | none => p
    | some vc =>
      if vc.connected then
        let vc := { vc with playback := Playback.playing, source_volume := some p.volume }
        let p := { p with voice_client := some vc,
                          is_playing := true,
                          playback_start_time := some now,
                          pause_position := 0,
                          last_activity_time := some now }
        let p := { p with voice_client := some vc.stopTransport,
                          skip_requested := skipDuring }
        if p.loop && !p.skip_requested then
          { p with queue := (p.queue.add track).2 }
        else p
      else p

/-- The `move` slash-command handler `Music.move` (`src/bot/cogs/music.py`,
lines 527-553): after the connectedness guard it evaluates
`player.queue.move(from_pos, to_pos)`.  `MusicQueue` defines no method named
`move` (queue.py lines 11-116 define only `MusicQueue.methodNames`), so the
attribute lookup raises `AttributeError` before any queue access. -/
def Music.moveCommand (p : MusicPlayer) (from_pos to_pos : Int) :
    Except MusicError (Option Track) × MusicQueue :=
  if ¬ p.is_connected then (Except.ok none, p.queue)
  else if ("move") ∈ MusicQueue.methodNames then
    -- never reached: queue.py defines no implementation this branch could embed
    (Except.ok none, p.queue)
  else
    (Except.error (MusicError.attributeError ("move")), p.queue)

/-- The state-changing operations of `MusicQueue`, used to state which
operations ever write the `_current` slot.  `shuffle` carries its random
source, `remove` its 1-indexed position. -/
inductive QueueOp where
  | add (t : Track)
  | next
  | clear
  | shuffle (r : Nat → Nat)
  | remove (position : Int)

/-- State effect of a `MusicQueue` operation. -/
def QueueOp.apply : QueueOp → MusicQueue → MusicQueue
  | QueueOp.add t, s => (s.add t).2
  | QueueOp.next, s => (MusicQueue.next s).2
  | QueueOp.clear, s => s.clear
  | QueueOp.shuffle r, s => s.shuffle r
  | QueueOp.remove position, s => (s.remove position).2

/-- A sequence of `MusicQueue.add` calls with no interleaved removals,
collecting the returned 1-indexed positions in call order. -/
def MusicQueue.addAll (s : MusicQueue) (ts : List Track) : List Nat × MusicQueue :=
  match ts with
  | [] => ([], s)
  | t :: rest =>
    let r := s.add t
    let r2 := MusicQueue.addAll r.2 rest
    (r.1 :: r2.1, r2.2)

/-- Sample track used by concrete witnesses. -/
def trackA : Track :=
  ⟨"A", "urlA", none, 100, "thumbA", "youtube", 1⟩

/-- Second sample track used by concrete witnesses. -/
def trackB : Track :=
  ⟨"B", "urlB", none, 200, "thumbB", "youtube", 2⟩

/-- Third sample track used by concrete witnesses. -/
def trackC : Track :=
  ⟨"C", "urlC", none, 300, "thumbC", "spotify", 3⟩

/-- A connected, idle player state used by concrete witnesses. -/
def connectedPlayer : MusicPlayer :=
  { queue := ⟨[], none⟩
    voice_client := some ⟨true, Playback.stopped, none⟩
    current := none
    volume := 1 / 2
    loop := true
    is_playing := false
    skip_requested := false
    playback_start_time := none
    pause_position := 0
    last_activity_time := some 0
    player_task_alive := true }

/-- A player paused mid-track, as produced by `play` at time 100 followed by
`pause` at time 130: the transport is paused, `_pause_position` holds the 30
elapsed seconds, and `_is_playing` and `_playback_start_time` keep the values
set at play start (`pause` clears neither). -/
def pausedPlayer : MusicPlayer :=
  { queue := ⟨[trackB], none⟩
    voice_client := some ⟨true, Playback.paused, some (1 / 2)⟩
    current := some trackA
    volume := 1 / 2
    loop := false
    is_playing := true
    skip_requested := false
    playback_start_time := some 100
    pause_position := 30
    last_activity_time := some 130
    player_task_alive := true }

/-- A stream resolver whose resolution always fails. -/
def failingResolver : Track → Option String :=
  fun _ => none

/-- A stream resolver whose resolution always succeeds. -/
def okResolver : Track → Option String :=
  fun _ => some ("stream")

/-- Concrete three-track queue used by witnesses. -/
def queueABC : MusicQueue :=
  ⟨[trackA, trackB, trackC], none⟩

/-- C5: a `Connect` call whose transport connect/move exceeds the timeout
bound raises `ConnectionTimeout` to the caller and leaves every field of the
player state unchanged: the `asyncio.TimeoutError` handler re-raises before
any assignment of `voice_client`, the activity timestamp, or the loop task. -/
theorem claim_C5_connect_timeout (p : MusicPlayer) (now : ℚ) :
    p.connect ConnectOutcome.timeout now =
      (Except.error MusicError.connectionTimeout, p) :=
  rfl

/-- C4: `set_volume` rejects every value outside `[0, 1]` with
`InvalidVolume` while leaving the player untouched, and accepts every value
in `[0, 1]` (both boundaries included), storing exactly that value. -/
theorem claim_C4_set_volume (p : MusicPlayer) (v now : ℚ) :
    (¬ (0 ≤ v ∧ v ≤ 1) →
      p.set_volume v now = (Except.error (MusicError.invalidVolume (v * 100)), p)) ∧
    (0 ≤ v ∧ v ≤ 1 →
      (p.set_volume v now).1 = Except.ok () ∧ (p.set_volume v now).2.volume = v) := by
  constructor
  · intro h
    simp [MusicPlayer.set_volume, h]
  · intro h
    constructor
    · rcases hvc : p.voice_client with _ | vc
      · simp [MusicPlayer.set_volume, h, hvc]
      · rcases hsv : vc.source_volume with _ | sv <;>
          simp [MusicPlayer.set_volume, h, hvc, hsv]
    · rcases hvc : p.voice_client with _ | vc
      · simp [MusicPlayer.set_volume, h, hvc]
      · rcases hsv : vc.source_volume with _ | sv <;>
          simp [MusicPlayer.set_volume, h, hvc, hsv]

/-- Witness for C4 at the boundary and out-of-range inputs: 3/2 is rejected
with `InvalidVolume` and no state change, while 1 and 0 are accepted. -/
theorem claim_C4_witness :
    (connectedPlayer.set_volume (3 / 2) 0 =
      (Except.error (MusicError.invalidVolume (3 / 2 * 100)), connectedPlayer)) ∧
    ((connectedPlayer.set_volume 1 0).1 = Except.ok () ∧
      (connectedPlayer.set_volume 1 0).2.volume = 1) ∧
    ((connectedPlayer.set_volume 0 0).1 = Except.ok () ∧
      (connectedPlayer.set_volume 0 0).2.volume = 0) :=
  ⟨(claim_C4_set_volume connectedPlayer (3 / 2) 0).1 (by norm_num),
   (claim_C4_set_volume connectedPlayer 1 0).2 (by norm_num),
   (claim_C4_set_volume connectedPlayer 0 0).2 (by norm_num)⟩

/-- C1 (code bug): on a connected player the `move` command handler evaluates
`player.queue.move(from_pos, to_pos)`, but `MusicQueue` defines no method
named `move`, so every such call raises `AttributeError` instead of
relocating a pending entry or returning empty. -/
theorem claim_C1_move_attribute_error (p : MusicPlayer) (from_pos to_pos : Int)
    (hconn : p.is_connected = true) :
    Music.moveCommand p from_pos to_pos =
      (Except.error (MusicError.attributeError ("move")), p.queue) ∧
    ("move") ∉ MusicQueue.methodNames := by
  constructor
  · simp [Music.moveCommand, hconn, MusicQueue.methodNames]
  · decide

/-- Witness for C1: the concrete call `move(1, 2)` on a connected player
raises `AttributeError`. -/
theorem claim_C1_witness :
    Music.moveCommand connectedPlayer 1 2 =
      (Except.error (MusicError.attributeError ("move")), connectedPlayer.queue) :=
  (claim_C1_move_attribute_error connectedPlayer 1 2 rfl).1

/-- C9 as amended: `get_current_position` returns
`pause_position + (now - start)` whenever the `_is_playing` flag is set and a
start time is recorded — which includes the transport-paused state, since
`pause` clears neither — and returns exactly `pause_position` only when the
flag is clear or no start time is recorded. -/
theorem claim_C9_position (p : MusicPlayer) (now start : ℚ) :
    (p.is_playing = true → p.playback_start_time = some start →
      p.get_current_position now = p.pause_position + (now - start)) ∧
    (p.is_playing = false ∨ p.playback_start_time = none →
      p.get_current_position now = p.pause_position) := by
  constructor
  · intro h1 h2
    simp [MusicPlayer.get_current_position, h1, h2]
  · intro h
    rcases h with h | h <;> simp [MusicPlayer.get_current_position, h]

/-- Witness for C9: on the paused fixture (flag still set, start = 100,
pause position = 30) the position at time 150 is 30 + (150 - 100) = 80. -/
theorem claim_C9_witness :
    pausedPlayer.get_current_position 150 =
      pausedPlayer.pause_position + (150 - 100) :=
  (claim_C9_position pausedPlayer 150 100).1 rfl rfl

/-- Counterexample to C9 as stated: `pausedPlayer` is paused (the transport
reports paused), yet `get_current_position` does not return the stored
`pause_position` of 30 — it returns 80, because `pause` leaves `_is_playing`
set and `_playback_start_time` recorded, so the playing branch double-counts
the interval before the pause. -/
theorem claim_C9_counterexample :
    (pausedPlayer.voice_client.map VoiceClient.playback = some Playback.paused) ∧
    pausedPlayer.pause_position = 30 ∧
    pausedPlayer.get_current_position 150 = 80 := by
  refine ⟨rfl, rfl, ?_⟩
  show (30 : ℚ) + (150 - 100) = 80
  norm_num

/-- C2 as amended: when the player is paused on a known current track and
fresh stream resolution fails, `resume` returns `false` and leaves the queue,
the current track, the pause position and the recorded start time unchanged —
but the transport does NOT remain paused: `resume` stops the transport before
attempting resolution, so on failure it is left stopped with its source
dropped. -/
theorem claim_C2_resume_failure (p : MusicPlayer) (resolve : Track → Option String)
    (now : ℚ) (vc : VoiceClient) (t : Track)
    (hvc : p.voice_client = some vc) (hpaused : vc.playback = Playback.paused)
    (ht : p.current = some t) (hr : resolve t = none) :
    p.resume resolve now = (false, { p with voice_client := some vc.stopTransport }) := by
  simp [MusicPlayer.resume, hvc, hpaused, ht, hr]

/-- Witness for C2: on the concrete paused fixture with a failing resolver,
`resume` returns `false` and only the transport field changes (to stopped). -/
theorem claim_C2_witness :
    pausedPlayer.resume failingResolver 150 =
      (false, { pausedPlayer with
                  voice_client := some (VoiceClient.stopTransport ⟨true, Playback.paused, some (1 / 2)⟩) }) :=
  claim_C2_resume_failure pausedPlayer failingResolver 150
    ⟨true, Playback.paused, some (1 / 2)⟩ trackA rfl rfl rfl rfl

/-- Counterexample to C2 as stated: on the paused fixture with a failing
resolver, `resume` returns `false` but the player state is NOT unchanged —
the transport was stopped before resolution was attempted, so it is no longer
paused. -/
theorem claim_C2_counterexample :
    (pausedPlayer.resume failingResolver 150).1 = false ∧
    (pausedPlayer.resume failingResolver 150).2 ≠ pausedPlayer ∧
    ((pausedPlayer.resume failingResolver 150).2.voice_client.map VoiceClient.playback =
      some Playback.stopped) := by
  refine ⟨rfl, ?_, rfl⟩
  intro h
  have h2 := congrArg MusicPlayer.voice_client h
  simp [pausedPlayer] at h2
  exact absurd (congrArg (Option.map VoiceClient.playback) h2) (by decide)

/-- C3: in a loop iteration that finishes playing a track (resolution
succeeded and the transport was connected), the just-finished track is
re-added exactly once at the tail of the queue when the loop flag is set and
no skip was requested during the track, and is not re-added otherwise. -/
theorem claim_C3_loop_requeue (p : MusicPlayer) (track : Track)
    (resolve : Track → Option String) (now : ℚ) (skipDuring : Bool)
    (url : String) (vc : VoiceClient)
    (hres : resolve track = some url) (hvc : p.voice_client = some vc)
    (hconn : vc.connected = true) :
    (p.play_one_track track resolve now skipDuring).queue.queue =
      (if p.loop && !skipDuring then p.queue.queue ++ [track] else p.queue.queue) ∧
    (p.play_one_track track resolve now skipDuring).queue.queue.count track =
      p.queue.queue.count track + (if p.loop && !skipDuring then 1 else 0) := by
  have hq : (p.play_one_track track resolve now skipDuring).queue.queue =
      (if p.loop && !skipDuring then p.queue.queue ++ [track] else p.queue.queue) := by
    simp [MusicPlayer.play_one_track, hres, hvc, hconn, MusicQueue.add]
    split <;> rfl
  refine ⟨hq, ?_⟩
  rw [hq]
  split <;> simp

/-- Witness for C3: finishing `trackA` on the connected fixture (loop flag
set, no skip) re-adds it exactly once at the tail of the empty queue. -/
theorem claim_C3_witness :
    (connectedPlayer.play_one_track trackA okResolver 10 false).queue.queue =
      (if connectedPlayer.loop && !false then
        connectedPlayer.queue.queue ++ [trackA]
      else connectedPlayer.queue.queue) ∧
    (connectedPlayer.play_one_track trackA okResolver 10 false).queue.queue.count trackA =
      connectedPlayer.queue.queue.count trackA +
        (if connectedPlayer.loop && !false then 1 else 0) :=
  claim_C3_loop_requeue connectedPlayer trackA okResolver 10 false ("stream")
    ⟨true, Playback.stopped, none⟩ rfl rfl rfl

/-- C6: a `remove` at an in-range 1-indexed position returns the track at
that position, shifts every later track down by one, keeps every earlier
track in place, shrinks the pending list by exactly one, and leaves
`_current` alone; an out-of-range position returns `None` and changes
nothing. -/
theorem claim_C6_remove (s : MusicQueue) (pos : Int) :
    (1 ≤ pos ∧ pos ≤ s.queue.length →
      (s.remove pos).1 = s.queue[(pos - 1).toNat]? ∧
      (s.remove pos).2.queue.length + 1 = s.queue.length ∧
      (∀ i : Nat, i < (pos - 1).toNat → (s.remove pos).2.queue[i]? = s.queue[i]?) ∧
      (∀ i : Nat, (pos - 1).toNat ≤ i → (s.remove pos).2.queue[i]? = s.queue[i + 1]?) ∧
      (s.remove pos).2.current = s.current) ∧
    (¬ (1 ≤ pos ∧ pos ≤ s.queue.length) → s.remove pos = (none, s)) := by
  constructor
  · intro h
    have hidx : (pos - 1).toNat < s.queue.length := by omega
    have hq : (s.remove pos).2.queue = s.queue.eraseIdx (pos - 1).toNat := by
      simp [MusicQueue.remove, h]
    refine ⟨?_, ?_, ?_, ?_, ?_⟩
    · simp [MusicQueue.remove, h]
    · rw [hq, List.length_eraseIdx, if_pos hidx]
      omega
    · intro i hi
      rw [hq, List.getElem?_eraseIdx, if_pos hi]
    · intro i hi
      have hni : ¬ i < (pos - 1).toNat := by omega
      rw [hq, List.getElem?_eraseIdx, if_neg hni]
    · simp [MusicQueue.remove, h]
  · intro h
    simp [MusicQueue.remove, h]

/-- Witness for C6: removing position 2 of the three-track fixture returns
the second track, shrinks the list from 3 to 2, keeps index 0 and shifts the
old index 2 down to index 1. -/
theorem claim_C6_witness :
    (queueABC.remove 2).1 = queueABC.queue[((2 : Int) - 1).toNat]? ∧
    (queueABC.remove 2).2.queue.length + 1 = queueABC.queue.length ∧
    (queueABC.remove 2).2.queue[0]? = queueABC.queue[0]? ∧
    (queueABC.remove 2).2.queue[1]? = queueABC.queue[1 + 1]? ∧
    (queueABC.remove 2).2.current = queueABC.current :=
  have h := (claim_C6_remove queueABC 2).1 (by norm_num [queueABC])
  ⟨h.1, h.2.1, h.2.2.1 0 (by norm_num), h.2.2.2.1 1 (by norm_num), h.2.2.2.2⟩

/-- Reduction of `addAll` on a cons: the first `add` returns position
`length + 1` and appends. -/
theorem addAll_cons (s : MusicQueue) (t : Track) (rest : List Track) :
    s.addAll (t :: rest) =
      ((s.queue.length + 1) :: (MusicQueue.addAll { s with queue := s.queue ++ [t] } rest).1,
       (MusicQueue.addAll { s with queue := s.queue ++ [t] } rest).2) := by
  simp [MusicQueue.addAll, MusicQueue.add]

/-- The positions returned by a run of `add` calls are the consecutive values
`length + 1, length + 2, ...`, the resulting pending list is the old one with
the new tracks appended in call order, and `_current` is untouched. -/
theorem addAll_spec (ts : List Track) : ∀ s : MusicQueue,
    (s.addAll ts).1 = (List.range ts.length).map (fun k => s.queue.length + k + 1) ∧
    (s.addAll ts).2.queue = s.queue ++ ts ∧
    (s.addAll ts).2.current = s.current := by
  induction ts with
  | nil =>
    intro s
    simp [MusicQueue.addAll]
  | cons t rest ih =>
    intro s
    obtain ⟨ih1, ih2, ih3⟩ := ih { s with queue := s.queue ++ [t] }
    rw [addAll_cons]
    refine ⟨?_, ?_, ?_⟩
    · simp only [List.length_cons]
      rw [List.range_succ_eq_map, List.map_cons, List.map_map]
      have hf : ((fun k => s.queue.length + k + 1) ∘ Nat.succ) =
          fun k => (s.queue ++ [t]).length + k + 1 := by
        funext k
        simp [Function.comp]
        omega
      simp only [ih1, hf]
    · simp [ih2]
    · simp [ih3]

/-- Successor steps of consecutive position lists form a `Chain'`. -/
theorem chain'_consecutive (c n : Nat) :
    List.Chain' (fun a b => a + 1 = b) ((List.range n).map (fun k => c + k + 1)) := by
  rw [List.chain'_iff_get]
  intro i h
  simp only [List.length_map, List.length_range] at h
  have h1 : i < n := by omega
  have h2 : i + 1 < n := by omega
  simp [List.get_eq_getElem, List.getElem_map, List.getElem_range, h1, h2]
  omega

/-- C7: over any run of `add` calls with no interleaved removals, the
returned positions are the strictly increasing consecutive 1-indexed values
starting right after the existing length, no call fails (`addAll` is total),
the final `get_list` lists the tracks in exactly the order they were added,
and position `length + k` indeed holds the `k`-th added track. -/
theorem claim_C7_add_positions (s : MusicQueue) (ts : List Track) :
    (s.addAll ts).1 = (List.range ts.length).map (fun k => s.queue.length + k + 1) ∧
    List.Chain' (fun a b => a + 1 = b) (s.addAll ts).1 ∧
    (s.addAll ts).2.get_list = s.queue ++ ts ∧
    (∀ k : Nat, k < ts.length →
      ((s.addAll ts).2.get_list)[s.queue.length + k]? = ts[k]?) := by
  obtain ⟨h1, h2, _⟩ := addAll_spec ts s
  refine ⟨h1, ?_, ?_, ?_⟩
  · rw [h1]
    exact chain'_consecutive s.queue.length ts.length
  · simp [MusicQueue.get_list, h2]
  · intro k hk
    simp [MusicQueue.get_list, h2]
    rw [List.getElem?_append_right (by omega)]
    simp

/-- Witness for C7: adding three tracks to the empty queue returns positions
1, 2, 3, `get_list` is in insertion order, and position index 1 holds the
second added track. -/
theorem claim_C7_witness :
    ((⟨[], none⟩ : MusicQueue).addAll [trackA, trackB, trackC]).1 =
      (List.range 3).map (fun k => ([] : List Track).length + k + 1) ∧
    List.Chain' (fun a b => a + 1 = b)
      ((⟨[], none⟩ : MusicQueue).addAll [trackA, trackB, trackC]).1 ∧
    ((⟨[], none⟩ : MusicQueue).addAll [trackA, trackB, trackC]).2.get_list =
      [] ++ [trackA, trackB, trackC] ∧
    (((⟨[], none⟩ : MusicQueue).addAll [trackA, trackB, trackC]).2.get_list)[([] : List Track).length + 1]? =
      ([trackA, trackB, trackC] : List Track)[1]? :=
  ⟨(claim_C7_add_positions ⟨[], none⟩ [trackA, trackB, trackC]).1,
   (claim_C7_add_positions ⟨[], none⟩ [trackA, trackB, trackC]).2.1,
   (claim_C7_add_positions ⟨[], none⟩ [trackA, trackB, trackC]).2.2.1,
   (claim_C7_add_positions ⟨[], none⟩ [trackA, trackB, trackC]).2.2.2 1 (by norm_num)⟩

/-- Exchanging two entries is a permutation of the list. -/
theorem listSwap_perm {α : Type} [DecidableEq α] (l : List α) (i j : Nat) :
    (listSwap l i j).Perm l := by
  unfold listSwap
  rcases hi : l[i]? with _ | a
  · simp
  · rcases hj : l[j]? with _ | b
    · simp
    · obtain ⟨hil, ha⟩ := List.getElem?_eq_some.mp hi
      obtain ⟨hjl, hb⟩ := List.getElem?_eq_some.mp hj
      have hmem : a ∈ l := ha ▸ List.getElem_mem hil
      rw [List.perm_iff_count]
      intro x
      have h1 : j < (l.set i b).length := by simpa using hjl
      rw [List.count_set a x (l.set i b) j h1, List.count_set b x l i hil]
      have hsj : (l.set i b)[j] = b := by
        rw [List.getElem_set]
        rcases eq_or_ne i j with hij | hij
        · simp [hij]
        · simp [hij, hb]
      rw [hsj, ha]
      have hcount : (if a = x then 1 else 0) ≤ List.count x l := by
        rcases eq_or_ne a x with hax | hax
        · subst hax
          simpa using List.count_pos_iff.mpr hmem
        · simp [hax]
      simp only [beq_iff_eq]
      set A : Nat := if a = x then 1 else 0 with hA
      set B : Nat := if b = x then 1 else 0 with hB
      omega

/-- Every pass of the embedded `random.shuffle` loop permutes the list,
whatever the random draws are. -/
theorem shuffleGo_perm {α : Type} [DecidableEq α] (r : Nat → Nat) :
    ∀ (n : Nat) (l : List α), (shuffleGo r n l).Perm l := by
  intro n
  induction n with
  | zero =>
    intro l
    exact List.Perm.refl l
  | succ m ih =>
    intro l
    exact (ih (listSwap l (m + 1) (r (m + 1) % (m + 2)))).trans (listSwap_perm l _ _)

/-- C8: `shuffle` only permutes the pending sequence — the multiset of
pending tracks is preserved for every random source — and the `_current`
slot is unchanged. -/
theorem claim_C8_shuffle (s : MusicQueue) (r : Nat → Nat) :
    ((s.shuffle r).queue : Multiset Track) = (s.queue : Multiset Track) ∧
    (s.shuffle r).current = s.current := by
  constructor
  · exact Multiset.coe_eq_coe.mpr (shuffleGo_perm r (s.queue.length - 1) s.queue)
  · rfl

/-- C10: `next` on an empty pending sequence returns `None` and leaves the
whole queue state — in particular the `_current` slot — unchanged, and over
all queue operations only `clear` and a successful `next` ever write the
`_current` slot: `clear` sets it to `None`, a successful `next` sets it to
the popped head, and every other operation preserves it. -/
theorem claim_C10_current_frame :
    (∀ s : MusicQueue, s.queue = [] → MusicQueue.next s = (none, s)) ∧
    (∀ (op : QueueOp) (s : MusicQueue),
      (op.apply s).currentTrack = s.currentTrack ∨
      (op = QueueOp.clear ∧ (op.apply s).currentTrack = none) ∨
      (op = QueueOp.next ∧ ∃ t rest, s.queue = t :: rest ∧
        (op.apply s).currentTrack = some t)) := by
  constructor
  · intro s h
    simp [MusicQueue.next, h]
  · intro op s
    cases op with
    | add t =>
      left
      simp [QueueOp.apply, MusicQueue.add, MusicQueue.currentTrack]
    | next =>
      rcases hq : s.queue with _ | ⟨t, rest⟩
      · left
        simp [QueueOp.apply, MusicQueue.next, hq]
      · right; right
        refine ⟨rfl, t, rest, rfl, ?_⟩
        simp [QueueOp.apply, MusicQueue.next, hq, MusicQueue.currentTrack]
    | clear =>
      right; left
      exact ⟨rfl, rfl⟩
    | shuffle r =>
      left
      rfl
    | remove position =>
      left
      simp only [QueueOp.apply, MusicQueue.remove, MusicQueue.currentTrack]
      split <;> rfl

/-- Witness for C10: `next` on an empty queue whose `_current` still holds a
previously popped track returns `None` and keeps that state intact. -/
theorem claim_C10_witness :
    MusicQueue.next ⟨[], some trackA⟩ = (none, ⟨[], some trackA⟩) :=
  claim_C10_current_frame.1 ⟨[], some trackA⟩ rfl

end BotMusique
